import Mathlib

set_option autoImplicit false

namespace PyTorchSpec

/-- Scalar element types of the framework, as the C++ types that receive
`AccumulateTypeDevice` specializations in `aten/src/ATen/AccumulateType.h`,
plus `uint16` as a representative C++ scalar type that has no specialization
there (querying it has no `type` member). -/
inductive ScalarType where
  | bool
  | uint8
  | int8
  | char
  | int16
  | int32
  | int64
  | uint16
  | half
  | bfloat16
  | float8_e5m2
  | float8_e5m2fnuz
  | float8_e4m3fn
  | float8_e4m3fnuz
  | float
  | double
  | complexHalf
  | complexFloat
  | complexDouble
deriving DecidableEq, Fintype

/-- Device classes, as a representative subset of `c10::DeviceType`: the three
that receive specializations (CPU, CUDA, MPS) plus three that do not. -/
inductive DeviceType where
  | CPU
  | CUDA
  | HIP
  | XLA
  | MPS
  | Meta
deriving DecidableEq, Fintype

/-- The `AccumulateTypeDevice` template of `AccumulateType.h`: the primary
template has no `type` member (modelled as `none`); each `ACC_TYPE`
specialization (via the `MPS_ACC_TYPE`, `CUDA_ACC_TYPE`, `CPU_ACC_TYPE`
macros) contributes one `some` entry, transcribed line by line from the
source.  The `half` specialization guarded by `__CUDACC__`/`__HIPCC__` maps
the CUDA built-in half type, which coincides with `Half` here. -/
def AccumulateTypeDevice (t : ScalarType) (d : DeviceType) : Option ScalarType :=
  match d, t with
  | .MPS, .bfloat16 => some .float
  | .MPS, .half => some .float
  | .MPS, .float8_e5m2 => some .float
  | .MPS, .float8_e5m2fnuz => some .float
  | .MPS, .float8_e4m3fn => some .float
  | .MPS, .float8_e4m3fnuz => some .float
  | .MPS, .float => some .float
  | .MPS, .double => some .float
  | .MPS, .int8 => some .int64
  | .MPS, .uint8 => some .int64
  | .MPS, .char => some .int64
  | .MPS, .int16 => some .int64
  | .MPS, .int32 => some .int64
  | .MPS, .int64 => some .int64
  | .MPS, .bool => some .bool
  | .MPS, .complexHalf => some .complexFloat
  | .MPS, .complexFloat => some .complexFloat
  | .MPS, .complexDouble => some .complexFloat
  | .CUDA, .bfloat16 => some .float
  | .CUDA, .half => some .float
  | .CUDA, .float8_e5m2 => some .float
  | .CUDA, .float8_e5m2fnuz => some .float
  | .CUDA, .float8_e4m3fn => some .float
  | .CUDA, .float8_e4m3fnuz => some .float
  | .CUDA, .float => some .float
  | .CUDA, .double => some .double
  | .CUDA, .int8 => some .int64
  | .CUDA, .uint8 => some .int64
  | .CUDA, .char => some .int64
  | .CUDA, .int16 => some .int64
  | .CUDA, .int32 => some .int64
  | .CUDA, .int64 => some .int64
  | .CUDA, .bool => some .bool
  | .CUDA, .complexHalf => some .complexFloat
  | .CUDA, .complexFloat => some .complexFloat
  | .CUDA, .complexDouble => some .complexDouble
  | .CPU, .bfloat16 => some .float
  | .CPU, .half => some .float
  | .CPU, .float8_e5m2 => some .float
  | .CPU, .float8_e5m2fnuz => some .float
  | .CPU, .float8_e4m3fn => some .float
  | .CPU, .float8_e4m3fnuz => some .float
  | .CPU, .float => some .double
  | .CPU, .double => some .double
  | .CPU, .int8 => some .int64
  | .CPU, .uint8 => some .int64
  | .CPU, .char => some .int64
  | .CPU, .int16 => some .int64
  | .CPU, .int32 => some .int64
  | .CPU, .int64 => some .int64
  | .CPU, .bool => some .bool
  | .CPU, .complexHalf => some .complexFloat
  | .CPU, .complexFloat => some .complexDouble
  | .CPU, .complexDouble => some .complexDouble
  | _, _ => none

/-- The `AccumulateType` template: `AccumulateType<T, false>` forwards to the
CPU entry and `AccumulateType<T, true>` forwards to the CUDA entry. -/
def AccumulateType (t : ScalarType) : Bool → Option ScalarType
  | false => AccumulateTypeDevice t DeviceType.CPU
  | true => AccumulateTypeDevice t DeviceType.CUDA

/-- The `acc_type_device` alias. -/
def acc_type_device (t : ScalarType) (d : DeviceType) : Option ScalarType :=
  AccumulateTypeDevice t d

/-- The `acc_type` alias. -/
def acc_type (t : ScalarType) (is_cuda : Bool) : Option ScalarType :=
  AccumulateType t is_cuda

/-- The floating-point (non-complex) element types named by the policy. -/
def isFloatingType : ScalarType → Bool
  | .half => true
  | .bfloat16 => true
  | .float8_e5m2 => true
  | .float8_e5m2fnuz => true
  | .float8_e4m3fn => true
  | .float8_e4m3fnuz => true
  | .float => true
  | .double => true
  | _ => false

/-- The declared key space of element types: exactly those that receive a
specialization for each of CPU, CUDA and MPS in the source. -/
def declaredElementTypes : List ScalarType :=
  [.bool, .int8, .uint8, .char, .int16, .int32, .int64, .half, .bfloat16,
   .float8_e5m2, .float8_e5m2fnuz, .float8_e4m3fn, .float8_e4m3fnuz,
   .float, .double, .complexHalf, .complexFloat, .complexDouble]

/-- The device classes that receive specializations in the source. -/
def supportedDevices : List DeviceType :=
  [.CPU, .CUDA, .MPS]

/-- The complex type built over a given real floating component type,
mirroring `c10::complex<T>` for the three component types in the table. -/
def complexOf : ScalarType → Option ScalarType
  | .half => some .complexHalf
  | .float => some .complexFloat
  | .double => some .complexDouble
  | _ => none

/-- A lazy-graph operand value (`torch::lazy::Value`): identified by the node
output it refers to (abstracted as an id) and carrying the shape of that
output, which is what shape inference of a consumer node consults. -/
structure Value where
  id : Nat
  shape : List Int
deriving DecidableEq

/-- The operation-kind code of the generic slice op (`ltc_generic_slice`). -/
def ltc_generic_slice : Nat := 1

/-- Modelled from the spec: `torch::lazy::MHash` is not under `src/`; the spec
describes the node hash as a deterministic structural hash of the two
integer-sequence attributes on which graph deduplication is correct, so it is
modelled as an injective pairing of encodings of the two sequences. -/
def MHash (base_indices sizes : List Int) : Nat :=
  Nat.pair (Encodable.encode base_indices) (Encodable.encode sizes)

/-- A `GenericSlice` IR node: one input operand, the two integer-sequence
attributes stored by value, and the structural hash computed at
construction. -/
structure GenericSlice where
  input : Value
  base_indices : List Int
  sizes : List Int
  hash_val : Nat
deriving DecidableEq

/-- The `GenericSlice::GenericSlice` constructor: binds the single input,
copies the two attribute sequences, and passes `MHash(base_indices, sizes)`
to the `TsNode` base together with the operation kind (the base combines
kind and seed into the node hash; that combination, living outside `src/`,
is modelled as a pairing). Shape is not computed here: `SetShapeDeferred`
registers `compiler::InferShape(this)` to run on first demand, modelled
below as the `GenericSlice.shape` function. -/
def mkGenericSlice (input : Value) (base_indices sizes : List Int) : GenericSlice :=
  ⟨input, base_indices, sizes, Nat.pair ltc_generic_slice (MHash base_indices sizes)⟩

/-- Validity of slice parameters against an input shape: equal ranks, and per
dimension a nonnegative base index with `base + size` within the extent. -/
def sliceOk (inputShape base_indices sizes : List Int) : Bool :=
  base_indices.length == inputShape.length &&
  sizes.length == inputShape.length &&
  (base_indices.zip (sizes.zip inputShape)).all
    (fun p => decide (0 ≤ p.1) && decide (p.1 + p.2.1 ≤ p.2.2))

/-- Modelled from the spec: `compiler::InferShape` (in
`ts_shape_inference`, not under `src/`). Per the spec, for a generic slice
it returns an output shape whose extents are `sizes` when the parameters are
consistent with the input shape, and fails with a graph-construction error
(here `none`) on rank mismatch or out-of-bounds indices; no partial shape is
returned. -/
def InferShape (inputShape base_indices sizes : List Int) : Option (List Int) :=
  if sliceOk inputShape base_indices sizes then some sizes else none

/-- The deferred shape of a node: the registered callback evaluated on
demand, i.e. shape inference applied to the node's own operand and
attributes. -/
def GenericSlice.shape (n : GenericSlice) : Option (List Int) :=
  InferShape n.input.shape n.base_indices n.sizes

/-- The `GenericSlice::Clone` member: `MakeNode<GenericSlice>(operands.at(0),
base_indices_, sizes_)`. The bounds-checked `operands.at(0)` is modelled by
the optional head access, so an empty operand list yields `none` instead of
binding an arbitrary operand. -/
def GenericSlice.Clone (n : GenericSlice) (operands : List Value) : Option GenericSlice :=
  (operands[0]?).map (fun v => mkGenericSlice v n.base_indices n.sizes)

/-- Modelled from the spec: `c10::Join(", ", xs)` (not under `src/`) renders
a sequence as its elements joined by the delimiter. -/
def c10Join (sep : String) : List Int → String
  | [] => ""
  | [x] => toString x
  | x :: y :: xs => toString x ++ sep ++ c10Join sep (y :: xs)

/-- The `GenericSlice::ToString` member, with the `TsNode::ToString()` base
description (produced outside `src/`) abstracted as the `base` argument:
the base string followed by the two attribute lists rendered with
`c10::Join`. -/
def GenericSlice.ToStringWith (n : GenericSlice) (base : String) : String :=
  base ++ ", base_indices=(" ++ c10Join ", " n.base_indices ++
    "), sizes=(" ++ c10Join ", " n.sizes ++ ")"

/-- C1 counterexample: on the CUDA device class the `double` element type
resolves to `double`, not to `float`, so the claim that both `float` and
`double` resolve to `float` on every accelerator class is false at
(`double`, CUDA). -/
theorem cuda_double_resolves_to_double :
    AccumulateTypeDevice ScalarType.double DeviceType.CUDA ≠ some ScalarType.float := by
  decide

/-- C1 (amended): on the Metal-like (MPS) device class every floating
element type, `double` included, resolves to `float` (never wider than
single precision); on the CUDA device class every floating element type
other than `double` resolves to `float`, while `double` resolves to
`double`. -/
theorem accelerator_float_cap :
    (∀ t : ScalarType, isFloatingType t = true →
      AccumulateTypeDevice t DeviceType.MPS = some ScalarType.float ∧
      (t ≠ ScalarType.double →
        AccumulateTypeDevice t DeviceType.CUDA = some ScalarType.float)) ∧
    AccumulateTypeDevice ScalarType.double DeviceType.CUDA = some ScalarType.double := by
  decide

/-- Witness for `accelerator_float_cap` at the `float` element type. -/
theorem accelerator_float_cap_witness :
    AccumulateTypeDevice ScalarType.float DeviceType.MPS = some ScalarType.float ∧
    AccumulateTypeDevice ScalarType.float DeviceType.CUDA = some ScalarType.float :=
  ⟨(accelerator_float_cap.1 ScalarType.float (by decide)).1,
   (accelerator_float_cap.1 ScalarType.float (by decide)).2 (by decide)⟩

/-- C2 counterexample: on the CUDA device class `complex<double>` resolves
to `complex<double>`, not to `complex<float>`, so the claim that
`complex<double>` resolves to `complex<float>` on every accelerator class
is false at (`complex<double>`, CUDA). -/
theorem cuda_complex_double_kept :
    AccumulateTypeDevice ScalarType.complexDouble DeviceType.CUDA ≠
      some ScalarType.complexFloat := by
  decide

/-- C2 (amended): complex element types resolve component-wise under the
per-device float policy on every device class; in particular
`complex<double>` resolves to `complex<float>` on MPS but stays
`complex<double>` on CUDA, and on CPU `complex<float>` resolves to
`complex<double>`. -/
theorem complex_componentwise :
    (∀ (b c : ScalarType) (d : DeviceType), complexOf b = some c →
      AccumulateTypeDevice c d = (AccumulateTypeDevice b d).bind complexOf) ∧
    AccumulateTypeDevice ScalarType.complexDouble DeviceType.MPS = some ScalarType.complexFloat ∧
    AccumulateTypeDevice ScalarType.complexDouble DeviceType.CUDA = some ScalarType.complexDouble ∧
    AccumulateTypeDevice ScalarType.complexFloat DeviceType.CPU = some ScalarType.complexDouble := by
  decide

/-- Witness for `complex_componentwise` at `complex<double>` on MPS. -/
theorem complex_componentwise_witness :
    AccumulateTypeDevice ScalarType.complexDouble DeviceType.MPS =
      (AccumulateTypeDevice ScalarType.double DeviceType.MPS).bind complexOf :=
  complex_componentwise.1 ScalarType.double ScalarType.complexDouble DeviceType.MPS (by decide)

/-- C3: the accumulation-type mapping is total exactly over the declared key
space: a resolved type exists for every declared element type on each of
CPU, CUDA and MPS, and for every (element type, device) pair outside that
table the primary template applies and no type member exists (`none`). -/
theorem accumulate_table_total :
    ∀ (t : ScalarType) (d : DeviceType),
      (AccumulateTypeDevice t d).isSome ↔
        (t ∈ declaredElementTypes ∧ d ∈ supportedDevices) := by
  decide

/-- C4: the boolean-flag form of the resolver agrees with the device-class
form: `acc_type<T, true>` is the CUDA entry and `acc_type<T, false>` is the
CPU entry, for every element type. -/
theorem acc_type_flag_consistent :
    ∀ t : ScalarType,
      acc_type t true = acc_type_device t DeviceType.CUDA ∧
      acc_type t false = acc_type_device t DeviceType.CPU :=
  fun _ => ⟨rfl, rfl⟩

/-- C5: on the CPU device class the `float` element type resolves to the
`double` accumulation type. -/
theorem cpu_float_accumulates_double :
    AccumulateTypeDevice ScalarType.float DeviceType.CPU = some ScalarType.double := rfl

/-- C6: cloning with a single-operand replacement list yields a new
`GenericSlice` whose `base_indices` and `sizes` equal the original's, whose
input is the replacement operand, and whose deferred shape is computed by
shape inference against the new operand's shape rather than copied from the
original. -/
theorem clone_single_operand :
    ∀ (n : GenericSlice) (v : Value),
      n.Clone [v] = some (mkGenericSlice v n.base_indices n.sizes) ∧
      (mkGenericSlice v n.base_indices n.sizes).base_indices = n.base_indices ∧
      (mkGenericSlice v n.base_indices n.sizes).sizes = n.sizes ∧
      (mkGenericSlice v n.base_indices n.sizes).input = v ∧
      (mkGenericSlice v n.base_indices n.sizes).shape =
        InferShape v.shape n.base_indices n.sizes :=
  fun _ _ => ⟨rfl, rfl, rfl, rfl, rfl⟩

/-- C7: when the slice parameters are inconsistent with the input's shape
(rank mismatch or out-of-bounds, i.e. the validity check fails), shape
inference returns the error outcome and the constructed node's deferred
shape is the error, never a partial shape. -/
theorem invalid_slice_shape_fails :
    ∀ (v : Value) (base_indices sizes : List Int),
      sliceOk v.shape base_indices sizes = false →
      (mkGenericSlice v base_indices sizes).shape = none := by
  intro v bi sz h
  simp [GenericSlice.shape, mkGenericSlice, InferShape, h]

/-- Witness for `invalid_slice_shape_fails`: base_indices = (0,), sizes =
(10,) against an input of shape (5,) is out of bounds and the node's shape
query fails. -/
theorem invalid_slice_shape_fails_witness :
    sliceOk [(5 : Int)] [0] [10] = false ∧
    (mkGenericSlice ⟨0, [(5 : Int)]⟩ [0] [10]).shape = none :=
  ⟨by decide, invalid_slice_shape_fails ⟨0, [(5 : Int)]⟩ [0] [10] (by decide)⟩

/-- C8: `ToString` is the base node description followed by exactly
", base_indices=(", the base indices joined by ", ", "), sizes=(", the
sizes joined by ", ", and ")"; on a node with base_indices = (2, 3) and
sizes = (4, 4) over an input of shape (8, 8) it renders the expected
"base_indices=(2, 3), sizes=(4, 4)" text. -/
theorem tostring_format :
    (∀ (base : String) (n : GenericSlice),
      n.ToStringWith base =
        base ++ ", base_indices=(" ++ c10Join ", " n.base_indices ++
          "), sizes=(" ++ c10Join ", " n.sizes ++ ")") ∧
    (mkGenericSlice ⟨0, [(8 : Int), 8]⟩ [2, 3] [4, 4]).ToStringWith "t" =
      "t, base_indices=(2, 3), sizes=(4, 4)" :=
  ⟨fun _ _ => rfl, by decide⟩

/-- C9: the structural hash is a deterministic function of the operation
kind and the two attribute sequences: nodes built from the same attributes
(over any operands) hash equal, and changing either attribute sequence
changes the hash. -/
theorem structural_hash_dedup :
    (∀ (v w : Value) (base_indices sizes : List Int),
      (mkGenericSlice v base_indices sizes).hash_val =
        (mkGenericSlice w base_indices sizes).hash_val) ∧
    (∀ (v w : Value) (b1 s1 b2 s2 : List Int), b1 ≠ b2 ∨ s1 ≠ s2 →
      (mkGenericSlice v b1 s1).hash_val ≠ (mkGenericSlice w b2 s2).hash_val) := by
  constructor
  · intro v w bi sz
    rfl
  · intro v w b1 s1 b2 s2 hne heq
    simp only [mkGenericSlice, MHash] at heq
    obtain ⟨-, h2⟩ := Nat.pair_eq_pair.mp heq
    obtain ⟨hb, hs⟩ := Nat.pair_eq_pair.mp h2
    rcases hne with h | h
    · exact h (Encodable.encode_injective hb)
    · exact h (Encodable.encode_injective hs)

/-- Witness for `structural_hash_dedup`: nodes over different operands with
base_indices (1, 1) versus (1, 2) hash differently. -/
theorem structural_hash_dedup_witness :
    (mkGenericSlice ⟨0, []⟩ [1, 1] [2, 2]).hash_val ≠
      (mkGenericSlice ⟨1, []⟩ [1, 2] [2, 2]).hash_val :=
  structural_hash_dedup.2 ⟨0, []⟩ ⟨1, []⟩ [1, 1] [2, 2] [1, 2] [2, 2] (Or.inl (by decide))

/-- C10: `Clone` reads only the operand at index 0: any operands beyond
the first do not affect the result, and cloning with an empty replacement
list fails through the bounds-checked access instead of binding an
arbitrary operand. -/
theorem clone_uses_first_operand :
    (∀ (n : GenericSlice) (v : Value) (r r' : List Value),
      n.Clone (v :: r) = n.Clone (v :: r')) ∧
    (∀ n : GenericSlice, n.Clone [] = none) := by
  constructor
  · intro n v r r'
    simp [GenericSlice.Clone]
  · intro n
    simp [GenericSlice.Clone]

end PyTorchSpec
